import Mathlib

/-!
Shallow embedding of the binance-mcp server (`src/index.ts`).

The server is a thin adapter: it registers four tools, dispatches tool
invocations, performs one outbound HTTP request per invocation against a
market-data source, and formats the response as text.  The embedding models

* JavaScript numbers as exact rationals (`ℚ`): every numeric string the
  program manipulates in the verified scenarios denotes a short decimal, so
  IEEE-754 rounding never separates the double from the rational it denotes
  at the precision the formatters print; `NaN`/`Infinity` never arise in any
  scenario covered below and are not modelled (`parseFloat` of a digit-free
  string is modelled as `0`);
* the HTTP data source as an explicit function argument (`DataSource`)
  mapping each outbound request to either a response (`Except.ok`) or a
  thrown transport error (`Except.error` carrying the error message);
* a handler or dispatcher that throws as `Except.error` with the thrown
  message, and a returned MCP tool reply as `Except.ok` of a `ToolResult`.
-/

namespace BinanceMCP

/-! ### JavaScript string/number primitives used by the server -/

/-- Decimal digit characters of a run, converted to a natural number
(most-significant digit first). -/
def digitsToNat (l : List Char) : Nat :=
  l.foldl (fun acc c => acc * 10 + (c.toNat - 48)) 0

/-- Split a leading run of decimal digits off a character list. -/
def takeDigits : List Char → List Char × List Char
  | [] => ([], [])
  | c :: rest =>
    if c.isDigit then
      let p := takeDigits rest
      (c :: p.1, p.2)
    else ([], c :: rest)

/-- Model of JavaScript `parseFloat`, restricted to the shapes the program
actually feeds it: optional leading spaces, optional sign, decimal digits
with an optional fractional part.  Exponent suffixes do not occur in the
exchange's decimal price strings; a digit-free input (JS `NaN`) is out of
scope of every verified scenario and is mapped to `0`. -/
def parseFloat (s : String) : ℚ :=
  let cs := s.toList.dropWhile (fun c => c = ' ')
  let signAndRest : ℚ × List Char :=
    match cs with
    | '-' :: r => (-1, r)
    | '+' :: r => (1, r)
    | _ => (1, cs)
  let ip := takeDigits signAndRest.2
  let fp : List Char :=
    match ip.2 with
    | '.' :: r => (takeDigits r).1
    | _ => []
  if ip.1.isEmpty && fp.isEmpty then 0
  else
    signAndRest.1 * ((digitsToNat ip.1 : ℚ) + (digitsToNat fp : ℚ) / 10 ^ fp.length)

/-- Left-pad a numeral string with zeros to `d` characters. -/
def padZeros (d : Nat) (s : String) : String :=
  (List.replicate (d - s.length) '0').asString ++ s

/-- Drop trailing `'0'` characters of a fractional digit string. -/
def stripTrailingZeros (s : String) : String :=
  ((s.toList.reverse.dropWhile (fun c => c = '0')).reverse).asString

/-- Insert thousands separators into a digit list given least-significant
digit first; result is also least-significant first. -/
def groupAux : List Char → List Char
  | a :: b :: c :: d :: rest => a :: b :: c :: ',' :: groupAux (d :: rest)
  | l => l

/-- Render a natural number with `","` thousands separators (en-US). -/
def groupThousands (n : Nat) : String :=
  ((groupAux (toString n).toList.reverse).reverse).asString

/-- Model of JavaScript `Number.prototype.toFixed(d)`: sign of the number,
then the absolute value rounded to `d` fraction digits, ties away from
zero on the absolute value (ECMA-262: of two candidates the larger is
chosen, applied after the sign is split off). No grouping. -/
def jsToFixed (d : Nat) (x : ℚ) : String :=
  let sign := if x < 0 then "-" else ""
  let n : Nat := (⌊|x| * (10 : ℚ) ^ d + 1 / 2⌋).toNat
  if d = 0 then sign ++ toString n
  else sign ++ toString (n / 10 ^ d) ++ "." ++ padZeros d (toString (n % 10 ^ d))

/-- Model of JavaScript `Number.prototype.toLocaleString()` under the
en-US default locale: grouped thousands, at most three fraction digits
(rounded half away from zero, the ECMA-402 `halfExpand` default), trailing
fractional zeros omitted. -/
def jsToLocaleString (x : ℚ) : String :=
  (if x < 0 then "-" else "") ++
    groupThousands ((⌊|x| * 1000 + 1 / 2⌋).toNat / 1000) ++
    (if stripTrailingZeros (padZeros 3 (toString ((⌊|x| * 1000 + 1 / 2⌋).toNat % 1000))) = ""
      then ""
      else "." ++ stripTrailingZeros (padZeros 3 (toString ((⌊|x| * 1000 + 1 / 2⌋).toNat % 1000))))

/-- Render a JavaScript number by `${...}` interpolation.  Integral values
print exactly as in JS; non-integral values are printed with up to twenty
fraction digits (exact for every terminating decimal the program produces;
JS shortest-round-trip printing agrees on all of them). -/
def jsNumToString (x : ℚ) : String :=
  let sign := if x < 0 then "-" else ""
  if x.den = 1 then sign ++ toString x.num.natAbs
  else
    let n : Nat := (⌊|x| * (10 : ℚ) ^ 20 + 1 / 2⌋).toNat
    sign ++ toString (n / 10 ^ 20) ++ "." ++
      stripTrailingZeros (padZeros 20 (toString (n % 10 ^ 20)))

/-- Civil date (year, month, day) of a day count since 1970-01-01,
proleptic Gregorian calendar. -/
def civilFromDays (z : Nat) : Nat × Nat × Nat :=
  let sh := z + 719468
  let era := sh / 146097
  let doe := sh % 146097
  let yoe := (doe - doe / 1460 + doe / 36524 - doe / 146097) / 365
  let y := yoe + era * 400
  let doy := doe - (365 * yoe + yoe / 4 - yoe / 100)
  let mp := (5 * doy + 2) / 153
  let d := doy - (153 * mp + 2) / 5 + 1
  let m := if mp < 10 then mp + 3 else mp - 9
  (if m ≤ 2 then y + 1 else y, m, d)

/-- Two-digit zero-padded numeral. -/
def pad2 (n : Nat) : String := padZeros 2 (toString n)

/-- Model of JavaScript `new Date(ms).toISOString()` for a non-negative
millisecond epoch timestamp: `YYYY-MM-DDTHH:MM:SS.mmmZ`. -/
def jsToISOString (ms : Nat) : String :=
  let days := ms / 86400000
  let rem := ms % 86400000
  let ymd := civilFromDays days
  padZeros 4 (toString ymd.1) ++ "-" ++ pad2 ymd.2.1 ++ "-" ++ pad2 ymd.2.2 ++
    "T" ++ pad2 (rem / 3600000) ++ ":" ++ pad2 (rem % 3600000 / 60000) ++ ":" ++
    pad2 (rem % 60000 / 1000) ++ "." ++ padZeros 3 (toString (rem % 1000)) ++ "Z"

/-- Model of JavaScript `Date.prototype.toLocaleString()` pinned to the
en-US locale and the UTC time zone (`M/D/YYYY, h:mm:ss AM/PM`).  The real
call is locale- and timezone-dependent; no verified scenario inspects the
characters it produces, so the model fixes one deterministic rendering. -/
def jsDateToLocaleString (ms : Nat) : String :=
  let days := ms / 86400000
  let rem := ms % 86400000
  let ymd := civilFromDays days
  let hh24 := rem / 3600000
  let hh12 := if hh24 % 12 = 0 then 12 else hh24 % 12
  toString ymd.2.1 ++ "/" ++ toString ymd.2.2 ++ "/" ++ toString ymd.1 ++ ", " ++
    toString hh12 ++ ":" ++ pad2 (rem % 3600000 / 60000) ++ ":" ++
    pad2 (rem % 60000 / 1000) ++ " " ++ (if hh24 < 12 then "AM" else "PM")

/-- Model of JavaScript `String.prototype.toUpperCase()` for the ASCII
symbols the program handles: each character is upper-cased. -/
def jsToUpperCase (s : String) : String :=
  ⟨s.data.map Char.toUpper⟩

/-- Split a character list at the first occurrence of `pat`, returning the
characters before the match and the characters after it. -/
def splitFirstOccur (pat : List Char) : List Char → Option (List Char × List Char)
  | [] => if pat.isEmpty then some ([], []) else none
  | c :: rest =>
    if pat.isPrefixOf (c :: rest) then some ([], (c :: rest).drop pat.length)
    else
      match splitFirstOccur pat rest with
      | some p => some (c :: p.1, p.2)
      | none => none

/-- Model of JavaScript `String.prototype.replace(pat, rep)` with a string
pattern: only the first occurrence is replaced; the string is returned
unchanged when the pattern does not occur. -/
def replaceFirst (s pat rep : String) : String :=
  match splitFirstOccur pat.toList s.toList with
  | some p => p.1.asString ++ rep ++ p.2.asString
  | none => s

/-! ### Data model (`src/index.ts`, wire shapes and MCP reply shape) -/

/-- Outbound query parameters of `/ticker/price` and `/ticker/24hr`. -/
structure PriceRequest where
  symbol : String
deriving DecidableEq

/-- Outbound query parameters of `/klines` (lines 257–263 and 316–322). -/
structure KlinesRequest where
  symbol : String
  interval : String
  limit : ℚ
deriving DecidableEq

/-- One candle as delivered by the data source: the six leading positions
of the wire array that the code destructures (lines 273 and 331); the
trailing wire fields are never read and are omitted from the model. -/
structure RawCandle where
  openTime : Nat
  «open» : String
  high : String
  low : String
  close : String
  volume : String
deriving DecidableEq, Inhabited

/-- Body of a `/ticker/price` response (the two fields the code reads). -/
structure PriceResponse where
  symbol : String
  price : String
deriving DecidableEq

/-- Body of a `/ticker/24hr` response, restricted to the fields
`get24hrTicker` reads (the `BinanceTicker24hr` interface declares more,
but only these eight are used). -/
structure Ticker24hr where
  symbol : String
  priceChange : String
  priceChangePercent : String
  lastPrice : String
  highPrice : String
  lowPrice : String
  volume : String
  quoteVolume : String
deriving DecidableEq

/-- One element of a tool reply's `content` array. -/
structure TextContent where
  type : String
  text : String
deriving DecidableEq

/-- The uniform MCP tool reply shape `{content: [...]}`. -/
structure ToolResult where
  content : List TextContent
deriving DecidableEq

/-- The reply every handler builds: a single text content item. -/
def textResult (t : String) : ToolResult :=
  ⟨[⟨"text", t⟩]⟩

/-- The HTTP data source, as the environment of the program: each outbound
request either yields a decoded response body (`ok`) or the HTTP client
throws (`error` with the thrown message). -/
structure DataSource where
  tickerPrice : PriceRequest → Except String PriceResponse
  ticker24hr : PriceRequest → Except String Ticker24hr
  klines : KlinesRequest → Except String (List RawCandle)

/-- The argument mapping of a tool invocation, with the fields the
dispatcher extracts (`symbol`, `interval`, `limit`).  An absent `limit` is
`none`; `symbol`/`interval` are modelled at their expected type (no claim
exercises an invocation that omits them for a tool that reads them). -/
structure ToolArgs where
  symbol : String
  interval : String
  limit : Option ℚ
deriving DecidableEq

/-- An inbound `CallTool` request: tool name plus optional arguments. -/
structure ToolInvocation where
  name : String
  arguments : Option ToolArgs
deriving DecidableEq

/-! ### The four handlers -/

/-- Re-throw with a handler-specific message, as each handler's
`catch` block does: an inner error message `e` becomes `p ++ e`. -/
def wrapError (p : String) : Except String ToolResult → Except String ToolResult
  | .error e => .error (p ++ e)
  | .ok r => .ok r

/-- Outbound request of `getCurrentPrice` (line 202): the symbol is
upper-cased. -/
def getCurrentPriceRequest (symbol : String) : PriceRequest :=
  ⟨jsToUpperCase symbol⟩

/-- Handler `getCurrentPrice` (lines 199–218). -/
def getCurrentPrice (ds : DataSource) (symbol : String) : Except String ToolResult :=
  wrapError "Failed to fetch current price: " <|
    match ds.tickerPrice (getCurrentPriceRequest symbol) with
    | .error e => .error e
    | .ok data =>
      .ok (textResult ("Current price for " ++ data.symbol ++ ": $" ++
        jsToLocaleString (parseFloat data.price)))

/-- Outbound request of `get24hrTicker` (line 223): the symbol is
upper-cased. -/
def get24hrTickerRequest (symbol : String) : PriceRequest :=
  ⟨jsToUpperCase symbol⟩

/-- The asset label printed after the 24h volume (line 245):
`data.symbol.replace('USDT', '').replace('BUSD', '').replace('BTC', '').replace('ETH', '')`.
Each `replace` removes only the first occurrence of its pattern, anywhere
in the string. -/
def volumeAssetLabel (symbol : String) : String :=
  replaceFirst (replaceFirst (replaceFirst (replaceFirst symbol "USDT" "") "BUSD" "") "BTC" "") "ETH" ""

/-- The `x >= 0 ? '+' : ''` sign marker used by the formatters. -/
def signOf (x : ℚ) : String :=
  if 0 ≤ x then "+" else ""

/-- The multi-line 24hr statistics text (lines 239–246; the second line of
the template literal consists of twelve spaces, exactly as in the source). -/
def ticker24hrText (data : Ticker24hr) : String :=
  let priceChange := parseFloat data.priceChange
  let priceChangePercent := parseFloat data.priceChangePercent
  "📊 " ++ data.symbol ++ " - 24hr Statistics:\n            \n💰 Current Price: $" ++
    jsToLocaleString (parseFloat data.lastPrice) ++
    "\n📈 24h Change: " ++ signOf priceChange ++ "$" ++ jsToFixed 4 priceChange ++
    " (" ++ signOf priceChangePercent ++ jsToFixed 2 priceChangePercent ++ "%)" ++
    "\n🔼 24h High: $" ++ jsToLocaleString (parseFloat data.highPrice) ++
    "\n🔽 24h Low: $" ++ jsToLocaleString (parseFloat data.lowPrice) ++
    "\n📊 24h Volume: " ++ jsToLocaleString (parseFloat data.volume) ++ " " ++
    volumeAssetLabel data.symbol ++
    "\n💵 Quote Volume: $" ++ jsToLocaleString (parseFloat data.quoteVolume)

/-- Handler `get24hrTicker` (lines 220–253). -/
def get24hrTicker (ds : DataSource) (symbol : String) : Except String ToolResult :=
  wrapError "Failed to fetch 24hr ticker: " <|
    match ds.ticker24hr (get24hrTickerRequest symbol) with
    | .error e => .error e
    | .ok data => .ok (textResult (ticker24hrText data))

/-- Outbound request of `getKlineData` (lines 257–263): upper-cased
symbol, interval and limit passed through unchanged. -/
def getKlineDataRequest (symbol interval : String) (limit : ℚ) : KlinesRequest :=
  ⟨jsToUpperCase symbol, interval, limit⟩

/-- One decoded display candle (lines 272–282). -/
structure ParsedKline where
  time : String
  «open» : ℚ
  high : ℚ
  low : ℚ
  close : ℚ
  volume : ℚ
deriving DecidableEq, Inhabited

/-- Positional decode of one candle (lines 273–281). -/
def parseKline (k : RawCandle) : ParsedKline :=
  ⟨jsToISOString k.openTime, parseFloat k.«open», parseFloat k.high,
    parseFloat k.low, parseFloat k.close, parseFloat k.volume⟩

/-- One line of the "Recent 5 candles" listing (lines 301–303).  The code
renders `new Date(k.time)` where `k.time` is the ISO string produced from
the candle's open time, so the reconstructed `Date` denotes the same
instant as `openTime`; the model renders that instant directly. -/
def klineCandleLine (k : RawCandle) : String :=
  jsDateToLocaleString k.openTime ++ ": O:" ++ jsToFixed 2 (parseFloat k.«open») ++
    " H:" ++ jsToFixed 2 (parseFloat k.high) ++ " L:" ++ jsToFixed 2 (parseFloat k.low) ++
    " C:" ++ jsToFixed 2 (parseFloat k.close)

/-- The kline summary text (lines 286–308).  `klines.slice(-5)` is the
trailing window of at most five candles; `lastKlines[lastKlines.length-1]`
is its last element (the series is non-empty on this path, so the
`Inhabited` default of the model is never the value used). -/
def klineText (symbol interval : String) (limit : ℚ) (klines : List RawCandle) : String :=
  let lastKlines := (klines.drop (klines.length - 5)).map parseKline
  let latestKline := (lastKlines.get? (lastKlines.length - 1)).getD default
  "📈 " ++ jsToUpperCase symbol ++ " Kline Data (" ++ interval ++ " interval, last " ++
    jsNumToString limit ++ " periods):\n\nLatest Candle:\n🕐 Time: " ++ latestKline.time ++
    "\n🟢 Open: $" ++ jsToLocaleString latestKline.«open» ++
    "\n🔴 Close: $" ++ jsToLocaleString latestKline.close ++
    "\n🔼 High: $" ++ jsToLocaleString latestKline.high ++
    "\n🔽 Low: $" ++ jsToLocaleString latestKline.low ++
    "\n📊 Volume: " ++ jsToLocaleString latestKline.volume ++
    "\n\nRecent 5 candles:\n" ++
    String.intercalate "\n" ((klines.drop (klines.length - 5)).map klineCandleLine) ++
    "\n\nTotal data points received: " ++ toString klines.length

/-- Handler `getKlineData` (lines 255–312): one outbound `/klines` call; an empty
series is an error, thrown inside the handler's `try` and therefore
re-thrown with the handler prefix. -/
def getKlineData (ds : DataSource) (symbol interval : String) (limit : ℚ) :
    Except String ToolResult :=
  wrapError "Failed to fetch kline data: " <|
    match ds.klines (getKlineDataRequest symbol interval limit) with
    | .error e => .error e
    | .ok klines =>
      if klines.length = 0 then .error "No kline data received"
      else .ok (textResult (klineText symbol interval limit klines))

/-- Outbound request of `getPriceHistory` (lines 316–322). -/
def getPriceHistoryRequest (symbol interval : String) (limit : ℚ) : KlinesRequest :=
  ⟨jsToUpperCase symbol, interval, limit⟩

/-- One entry of the `historicalData` parallel series (lines 330–343). -/
structure HistEntry where
  period : Nat
  timestamp : String
  «open» : ℚ
  high : ℚ
  low : ℚ
  close : ℚ
  volume : ℚ
  change : ℚ
deriving DecidableEq, Inhabited

/-- The period-over-period change of entry `index` (lines 340–342):
`(parseFloat(close) - parseFloat(klines[index-1][4])) / parseFloat(klines[index-1][4]) * 100`
for `index > 0`, else `0`.  The `none` branch of the lookup is unreachable
when `index` ranges over positions of `klines`. -/
def periodChange (klines : List RawCandle) (index : Nat) (k : RawCandle) : ℚ :=
  if 0 < index then
    match klines.get? (index - 1) with
    | some prev =>
      (parseFloat k.close - parseFloat prev.close) / parseFloat prev.close * 100
    | none => 0
  else 0

/-- The entry the series-building callback produces at position `index`
(lines 332–342). -/
def histEntryAt (klines : List RawCandle) (index : Nat) (k : RawCandle) : HistEntry :=
  { period := index + 1
    timestamp := jsToISOString k.openTime
    «open» := parseFloat k.«open»
    high := parseFloat k.high
    low := parseFloat k.low
    close := parseFloat k.close
    volume := parseFloat k.volume
    change := periodChange klines index k }

/-- The decoded parallel series (lines 330–343). -/
def historicalData (klines : List RawCandle) : List HistEntry :=
  klines.mapIdx (histEntryAt klines)

/-- Summary figure `totalChange` (lines 345–347): `(latest.close - oldest.open) / oldest.open * 100`
over the first and last entries of the parallel series. -/
def totalChange (klines : List RawCandle) : ℚ :=
  let hd := historicalData klines
  let latest := (hd.get? (hd.length - 1)).getD default
  let oldest := (hd.get? 0).getD default
  (latest.close - oldest.«open») / oldest.«open» * 100

/-- Model of `Math.max(...)` over a series known non-empty on every reachable path;
JS would give `-Infinity` on an empty argument list, which cannot occur. -/
def listMax : List ℚ → ℚ
  | [] => 0
  | x :: xs => xs.foldl max x

/-- Model of `Math.min(...)` over a series known non-empty on every reachable path. -/
def listMin : List ℚ → ℚ
  | [] => 0
  | x :: xs => xs.foldl min x

/-- Projection `timestamp.split('T')[0]` — the date half of an ISO timestamp. -/
def dateOf (ts : String) : String :=
  ((ts.splitOn "T").get? 0).getD ""

/-- Projection `timestamp.split('T')[1].split('.')[0]` — the seconds-precision time
half of an ISO timestamp. -/
def timeOf (ts : String) : String :=
  (((((ts.splitOn "T").get? 1).getD "").splitOn ".").get? 0).getD ""

/-- One line of the "Recent 10 periods" listing (lines 364–366). -/
def histLine (d : HistEntry) : String :=
  dateOf d.timestamp ++ " " ++ timeOf d.timestamp ++ ": " ++ jsToFixed 2 d.close ++
    " (" ++ signOf d.change ++ jsToFixed 2 d.change ++ "%)"

/-- The price history text (lines 349–369). -/
def historyText (symbol interval : String) (limit : ℚ) (klines : List RawCandle) : String :=
  let hd := historicalData klines
  let latest := (hd.get? (hd.length - 1)).getD default
  let oldest := (hd.get? 0).getD default
  let tc := totalChange klines
  "📊 " ++ jsToUpperCase symbol ++ " Price History (" ++ interval ++ " intervals, " ++
    jsNumToString limit ++ " periods):\n\n📈 Summary:\n• Period: " ++
    dateOf oldest.timestamp ++ " to " ++ dateOf latest.timestamp ++
    "\n• Starting Price: $" ++ jsToLocaleString oldest.«open» ++
    "\n• Current Price: $" ++ jsToLocaleString latest.close ++
    "\n• Total Change: " ++ signOf tc ++ jsToFixed 2 tc ++ "%" ++
    "\n• Highest: " ++ jsToLocaleString (listMax (hd.map (fun d => d.high))) ++
    "\n• Lowest: " ++ jsToLocaleString (listMin (hd.map (fun d => d.low))) ++
    "\n\n📋 Recent 10 periods:\n" ++
    String.intercalate "\n" ((hd.drop (hd.length - 10)).map histLine)

/-- Handler `getPriceHistory` (lines 314–373). -/
def getPriceHistory (ds : DataSource) (symbol interval : String) (limit : ℚ) :
    Except String ToolResult :=
  wrapError "Failed to fetch price history: " <|
    match ds.klines (getPriceHistoryRequest symbol interval limit) with
    | .error e => .error e
    | .ok klines =>
      if klines.length = 0 then .error "No historical data received"
      else .ok (textResult (historyText symbol interval limit klines))

/-! ### Dispatch (`setupToolHandlers`, lines 154–196) -/

/-- JavaScript `limit || d`: a falsy `limit` (absent, or the number `0`;
`NaN` never arises here) selects the default. -/
def jsOrDefault (limit : Option ℚ) (d : ℚ) : ℚ :=
  match limit with
  | some x => if x = 0 then d else x
  | none => d

/-- The limit dispatched to `getKlineData` (line 173): `(args.limit as number) || 100`. -/
def klineLimitOf (l : Option ℚ) : ℚ :=
  jsOrDefault l 100

/-- The limit dispatched to `getPriceHistory` (line 180): `(args.limit as number) || 24`. -/
def historyLimitOf (l : Option ℚ) : ℚ :=
  jsOrDefault l 24

/-- The `catch` of the dispatch `try` block (lines 186–195): any error
thrown inside the `switch` becomes a successful reply whose text is
`Error: <message>`. -/
def catchToText : Except String ToolResult → Except String ToolResult
  | .error e => .ok (textResult ("Error: " ++ e))
  | .ok r => .ok r

/-- The `switch (name)` inside the dispatch `try` block (lines 162–185). -/
def dispatchSwitch (ds : DataSource) (name : String) (args : ToolArgs) :
    Except String ToolResult :=
  if name = "get_current_price" then getCurrentPrice ds args.symbol
  else if name = "get_24hr_ticker" then get24hrTicker ds args.symbol
  else if name = "get_kline_data" then
    getKlineData ds args.symbol args.interval (klineLimitOf args.limit)
  else if name = "get_price_history" then
    getPriceHistory ds args.symbol args.interval (historyLimitOf args.limit)
  else .error ("Unknown tool: " ++ name)

/-- The whole `CallToolRequestSchema` handler (lines 154–196).  The
`Missing arguments` check sits before the `try` block, so that error is
thrown out of the handler (an `Except.error` at this boundary) instead of
being converted by the `catch`. -/
def handleCallTool (ds : DataSource) (req : ToolInvocation) : Except String ToolResult :=
  match req.arguments with
  | none => .error "Missing arguments"
  | some args => catchToText (dispatchSwitch ds req.name args)

/-! ### Static descriptor data (`ListToolsRequestSchema` handler, lines 70–152) -/

/-- The four registered tool names (lines 74, 88, 102, 127), in
registration order. -/
def registeredToolNames : List String :=
  ["get_current_price", "get_24hr_ticker", "get_kline_data", "get_price_history"]

/-- The `interval` enumeration advertised in `get_kline_data`'s input
schema (line 114). -/
def klineIntervalEnum : List String :=
  ["1m", "3m", "5m", "15m", "30m", "1h", "2h", "4h", "6h", "8h", "12h", "1d", "3d", "1w", "1M"]

/-- The `limit` minimum advertised in `get_kline_data`'s input schema (line 119). -/
def klineLimitMinimum : ℚ := 1

/-- The `limit` maximum advertised in `get_kline_data`'s input schema (line 120). -/
def klineLimitMaximum : ℚ := 1000

/-- Whether an `Except`-valued handler outcome is a returned reply rather
than a thrown error. -/
def isOkOutcome (e : Except String ToolResult) : Bool :=
  match e with
  | .ok _ => true
  | .error _ => false

/-- The reply shape every produced `ToolResult` satisfies: a single
content item, of type `"text"`. -/
def wellFormedResult (r : ToolResult) : Prop :=
  r.content.length = 1 ∧ ∀ c ∈ r.content, c.type = "text"

instance {ε α : Type} [DecidableEq ε] [DecidableEq α] : DecidableEq (Except ε α) := fun a b =>
  match a, b with
  | .error x, .error y =>
    if h : x = y then .isTrue (by rw [h]) else .isFalse (fun hh => h (Except.error.inj hh))
  | .error _, .ok _ => .isFalse (fun hh => Except.noConfusion hh)
  | .ok _, .error _ => .isFalse (fun hh => Except.noConfusion hh)
  | .ok x, .ok y =>
    if h : x = y then .isTrue (by rw [h]) else .isFalse (fun hh => h (Except.ok.inj hh))

/-! ### Concrete environments used to instantiate the theorems -/

/-- A data source on which every outbound request fails with a transport
error. -/
def networkErrDS : DataSource :=
  ⟨fun _ => .error "network error", fun _ => .error "network error",
    fun _ => .error "network error"⟩

/-- A data source whose candle endpoint reports back the limit it was
asked for (inside the thrown message), making the outbound limit visible
in the reply text. -/
def limitProbeDS : DataSource :=
  ⟨fun _ => .error "e", fun _ => .error "e", fun req => .error (jsNumToString req.limit)⟩

/-- A data source whose candle endpoint reports back the interval it was
asked for. -/
def intervalProbeDS : DataSource :=
  ⟨fun _ => .error "e", fun _ => .error "e", fun req => .error req.interval⟩

/-- A data source whose price endpoint reports back the symbol it was
asked for. -/
def symbolProbeDS : DataSource :=
  ⟨fun req => .error req.symbol, fun _ => .error "e", fun _ => .error "e"⟩

/-- A data source answering every price request with the mocked body
`{symbol: "BTCUSDT", price: "65000.5"}`. -/
def btcPriceDS : DataSource :=
  ⟨fun _ => .ok ⟨"BTCUSDT", "65000.5"⟩, fun _ => .error "e", fun _ => .error "e"⟩

/-- A data source answering every candle request with an empty array. -/
def emptyKlinesDS : DataSource :=
  ⟨fun _ => .error "e", fun _ => .error "e", fun _ => .ok []⟩

/-- A data source answering every candle request with one candle. -/
def oneCandleDS : DataSource :=
  ⟨fun _ => .error "e", fun _ => .error "e", fun _ => .ok [⟨0, "1", "1", "1", "1", "1"⟩]⟩

/-- The mocked two-candle series
`[[0,"100","110","90","105","10"],[60000,"105","115","95","110","12"]]`. -/
def twoCandleSeries : List RawCandle :=
  [⟨0, "100", "110", "90", "105", "10"⟩, ⟨60000, "105", "115", "95", "110", "12"⟩]

/-- A data source answering every candle request with `twoCandleSeries`. -/
def twoCandleDS : DataSource :=
  ⟨fun _ => .error "e", fun _ => .error "e", fun _ => .ok twoCandleSeries⟩

/-! ### Claim C1 — missing arguments -/

/-- Claim C1 counterexample: invoking a tool with the arguments mapping
absent does not produce a successful-transport text reply at all — the
`Missing arguments` error is thrown before the dispatch `try` block, so
it propagates out of the handler instead of being converted to the
claimed `Error: Missing arguments` text result. -/
theorem c1_counterexample :
    handleCallTool networkErrDS ⟨"get_current_price", none⟩ =
      Except.error "Missing arguments" ∧
    handleCallTool networkErrDS ⟨"get_current_price", none⟩ ≠
      Except.ok (textResult "Error: Missing arguments") :=
  ⟨rfl, by decide⟩

/-- Claim C1 (amended): for every tool invocation whose arguments mapping
is absent, regardless of the tool name and of the data source, dispatch
propagates an error with message `Missing arguments` out of the handler (a
transport-level fault); no text reply is produced, because the check sits
before the `try`/`catch` that converts handler errors into text. -/
theorem c1_missing_arguments_propagates (ds : DataSource) (name : String) :
    handleCallTool ds ⟨name, none⟩ = Except.error "Missing arguments" :=
  rfl

/-! ### Claim C2 — limit clamping -/

/-- Claim C2 counterexample: a `get_kline_data` invocation supplying
`limit = 5000` sends 5000 to the data source — observable end to end with
a probing data source whose candle endpoint throws its requested limit
back as the error message — and 5000 exceeds the advertised maximum, so
the dispatched limit is not clamped to `[1, 1000]`. -/
theorem c2_counterexample :
    handleCallTool limitProbeDS ⟨"get_kline_data", some ⟨"BTCUSDT", "1h", some 5000⟩⟩ =
      Except.ok (textResult "Error: Failed to fetch kline data: 5000") ∧
    ¬ klineLimitOf (some 5000) ≤ klineLimitMaximum :=
  ⟨rfl, by decide⟩

/-- Claim C2 (amended): no clamping of `limit` is performed at runtime for
`get_kline_data` or `get_price_history`: the `[1, 1000]` bounds exist only
in the advertised input schema, and every non-falsy supplied limit — also
one outside the interval — is placed unchanged into the outbound candle
request (a falsy limit is replaced by the tool's default instead). -/
theorem c2_limit_passed_through (x : ℚ) (hx : x ≠ 0) (s i : String) :
    klineLimitOf (some x) = x ∧ historyLimitOf (some x) = x ∧
    (getKlineDataRequest s i (klineLimitOf (some x))).limit = x ∧
    (getPriceHistoryRequest s i (historyLimitOf (some x))).limit = x := by
  simp [klineLimitOf, historyLimitOf, jsOrDefault, hx, getKlineDataRequest,
    getPriceHistoryRequest]

/-- Claim C2 witness: the pass-through evaluated at the concrete limit
5000. -/
theorem c2_witness :
    klineLimitOf (some 5000) = 5000 ∧ historyLimitOf (some 5000) = 5000 ∧
    (getKlineDataRequest "BTCUSDT" "1h" (klineLimitOf (some 5000))).limit = 5000 ∧
    (getPriceHistoryRequest "BTCUSDT" "1h" (historyLimitOf (some 5000))).limit = 5000 :=
  c2_limit_passed_through 5000 (by decide) "BTCUSDT" "1h"

/-! ### Claim C3 — interval enumeration -/

/-- Claim C3 counterexample: a `get_kline_data` invocation supplying the
interval `"7m"`, which is outside the enumerated set, sends `"7m"` to the
data source — observable end to end with a probing data source whose
candle endpoint throws its requested interval back as the error message. -/
theorem c3_counterexample :
    handleCallTool intervalProbeDS ⟨"get_kline_data", some ⟨"BTCUSDT", "7m", some 100⟩⟩ =
      Except.ok (textResult "Error: Failed to fetch kline data: 7m") ∧
    "7m" ∉ klineIntervalEnum :=
  ⟨rfl, by decide⟩

/-- Claim C3 (amended): for both candle-fetching tools the interval value
is passed through to the outbound request entirely unvalidated; the
enumerated set `1m,…,1M` is only advertised in `get_kline_data`'s input
schema (and not at all in `get_price_history`'s), so intervals outside the
set are passed to the data source verbatim. -/
theorem c3_interval_passed_through (s i : String) (l : ℚ) :
    (getKlineDataRequest s i l).interval = i ∧
    (getPriceHistoryRequest s i l).interval = i :=
  ⟨rfl, rfl⟩

/-! ### Claim C4 — the 24h volume asset label -/

/-- Claim C4 counterexample: for the symbol `BTCUSDT` the printed asset
label is the empty string, not `BTC` as claimed (the third `replace` also
removes the base asset `BTC`), and a symbol quoted in EUR is not left
unstripped (`BTCEUR` loses its `BTC`). -/
theorem c4_counterexample :
    volumeAssetLabel "BTCUSDT" = "" ∧ volumeAssetLabel "BTCUSDT" ≠ "BTC" ∧
    volumeAssetLabel "BTCEUR" ≠ "BTCEUR" := by
  decide

/-- Claim C4 (amended): the asset label printed after the 24h volume
figure is the response symbol with the first occurrence of each of `USDT`,
`BUSD`, `BTC`, `ETH` removed, sequentially in that order and anywhere in
the string — not only as a quote suffix.  When the remainder of the symbol
contains none of the four substrings this strips exactly a `USDT`/`BUSD`
quote suffix (`SOLUSDT → SOL`) and leaves other quote assets unstripped
(`DOGETRY → DOGETRY`), but `BTCUSDT`, `ETHUSDT` and `ETHBTC` yield the
empty label and `BTCEUR` yields `EUR`. -/
theorem c4_sequential_strip :
    (∀ d : Ticker24hr, ∃ pre : String,
        ticker24hrText d = pre ++ jsToLocaleString (parseFloat d.volume) ++ " " ++
          volumeAssetLabel d.symbol ++ "\n💵 Quote Volume: $" ++
          jsToLocaleString (parseFloat d.quoteVolume)) ∧
    volumeAssetLabel "SOLUSDT" = "SOL" ∧ volumeAssetLabel "DOGETRY" = "DOGETRY" ∧
    volumeAssetLabel "BTCUSDT" = "" ∧ volumeAssetLabel "ETHUSDT" = "" ∧
    volumeAssetLabel "ETHBTC" = "" ∧ volumeAssetLabel "BTCEUR" = "EUR" := by
  refine ⟨fun d => ⟨"📊 " ++ d.symbol ++ " - 24hr Statistics:\n            \n💰 Current Price: $" ++
    jsToLocaleString (parseFloat d.lastPrice) ++ "\n📈 24h Change: " ++
    signOf (parseFloat d.priceChange) ++ "$" ++ jsToFixed 4 (parseFloat d.priceChange) ++
    " (" ++ signOf (parseFloat d.priceChangePercent) ++
    jsToFixed 2 (parseFloat d.priceChangePercent) ++ "%)" ++ "\n🔼 24h High: $" ++
    jsToLocaleString (parseFloat d.highPrice) ++ "\n🔽 24h Low: $" ++
    jsToLocaleString (parseFloat d.lowPrice) ++ "\n📊 24h Volume: ", ?_⟩, ?_, ?_, ?_, ?_, ?_, ?_⟩
  · simp [ticker24hrText, String.append_assoc]
  all_goals decide

/-! ### Claim C5 — price-history percentage changes -/

/-- Position `i` of the decoded parallel series is the entry built from
position `i` of the candle series. -/
theorem historicalData_get? (klines : List RawCandle) (i : Nat) :
    (historicalData klines).get? i = (klines.get? i).map (histEntryAt klines i) := by
  by_cases h : i < klines.length
  · have h2 : i < (historicalData klines).length := by
      simpa [historicalData, List.length_mapIdx] using h
    rw [List.get?_eq_get h, List.get?_eq_get h2]
    exact congrArg some (List.get_mapIdx klines (histEntryAt klines) i h h2)
  · have h2 : (historicalData klines).length ≤ i := by
      simp only [historicalData, List.length_mapIdx]
      exact Nat.le_of_not_lt h
    rw [List.get?_eq_none.mpr h2, List.get?_eq_none.mpr (Nat.le_of_not_lt h)]
    rfl

/-- Value of `parseFloat` on the numeral `"100"`. -/
theorem parseFloat_100 : parseFloat "100" = 100 := by
  have h : parseFloat "100" = 1 * ((100 : ℚ) + (0 : ℚ) / 10 ^ (0 : Nat)) := rfl
  rw [h]; norm_num

/-- Value of `parseFloat` on the numeral `"105"`. -/
theorem parseFloat_105 : parseFloat "105" = 105 := by
  have h : parseFloat "105" = 1 * ((105 : ℚ) + (0 : ℚ) / 10 ^ (0 : Nat)) := rfl
  rw [h]; norm_num

/-- Value of `parseFloat` on the numeral `"110"`. -/
theorem parseFloat_110 : parseFloat "110" = 110 := by
  have h : parseFloat "110" = 1 * ((110 : ℚ) + (0 : ℚ) / 10 ^ (0 : Nat)) := rfl
  rw [h]; norm_num

/-- Evaluation scheme for `jsToLocaleString` on a non-negative rational
whose scaled rounding is known. -/
theorem jsToLocaleString_eq (x : ℚ) (n : ℤ) (h0 : ¬ x < 0)
    (h1 : ⌊x * 1000 + 1 / 2⌋ = n) :
    jsToLocaleString x =
      groupThousands (n.toNat / 1000) ++
        (if stripTrailingZeros (padZeros 3 (toString (n.toNat % 1000))) = "" then ""
         else "." ++ stripTrailingZeros (padZeros 3 (toString (n.toNat % 1000)))) := by
  unfold jsToLocaleString
  rw [abs_of_nonneg (not_lt.mp h0), if_neg h0, h1]
  rfl

/-- Value of `jsToLocaleString` on `parseFloat "65000.5"`. -/
theorem jsToLocaleString_65000_5 : jsToLocaleString (parseFloat "65000.5") = "65,000.5" := by
  have hp : parseFloat "65000.5" = 1 * ((65000 : ℚ) + (5 : ℚ) / 10 ^ (1 : Nat)) := rfl
  have hx : parseFloat "65000.5" = 130001 / 2 := by rw [hp]; norm_num
  have hval : (130001 : ℚ) / 2 * 1000 + 1 / 2 = 130001001 / 2 := by norm_num
  have hf : ⌊(130001 : ℚ) / 2 * 1000 + 1 / 2⌋ = 65000500 := by
    rw [hval]
    refine Int.floor_eq_iff.mpr ⟨by norm_num, by norm_num⟩
  rw [hx, jsToLocaleString_eq (130001 / 2) 65000500 (by norm_num) hf]
  decide

/-- Claim C5: in the parallel series built by `get_price_history`, entry
`i` carries period index `i + 1` and percentage change
`(close[i] - close[i-1]) / close[i-1] * 100` for `i > 0`, the first entry
carries change `0`, the reported total change is
`(lastClose - firstOpen) / firstOpen * 100`, and on the mocked two-candle
series the total change is `10` (formatted `10.00%`) and the period-2
change is `(110 - 105) / 105 * 100` (`≈ 4.76`). -/
theorem c5_price_history_changes :
    (∀ (klines : List RawCandle) (i : Nat) (k prev : RawCandle) (e : HistEntry),
        (historicalData klines).get? i = some e → klines.get? i = some k →
        klines.get? (i - 1) = some prev → 0 < i →
        e.period = i + 1 ∧
        e.change = (parseFloat k.close - parseFloat prev.close) / parseFloat prev.close * 100) ∧
    (∀ (klines : List RawCandle) (e : HistEntry),
        (historicalData klines).get? 0 = some e → e.period = 1 ∧ e.change = 0) ∧
    (∀ (klines : List RawCandle) (first last : RawCandle),
        klines.get? 0 = some first → klines.get? (klines.length - 1) = some last →
        totalChange klines =
          (parseFloat last.close - parseFloat first.«open») / parseFloat first.«open» * 100) ∧
    totalChange twoCandleSeries = 10 ∧
    ((historicalData twoCandleSeries).get? 1).map HistEntry.change =
      some ((110 - 105) / 105 * 100) := by
  refine ⟨?_, ?_, ?_, ?_, ?_⟩
  · intro klines i k prev e he hk hp hi
    rw [historicalData_get?, hk] at he
    obtain rfl : histEntryAt klines i k = e := Option.some.inj he
    refine ⟨rfl, ?_⟩
    show periodChange klines i k = _
    unfold periodChange
    rw [if_pos hi, hp]
  · intro klines e he
    rw [historicalData_get?] at he
    cases hk : klines.get? 0 with
    | none => rw [hk] at he; exact Option.noConfusion he
    | some k =>
      rw [hk] at he
      obtain rfl : histEntryAt klines 0 k = e := Option.some.inj he
      exact ⟨rfl, rfl⟩
  · intro klines first last h0 hl
    have hlen : (historicalData klines).length = klines.length := by
      simp [historicalData, List.length_mapIdx]
    have h1 : (historicalData klines).get? ((historicalData klines).length - 1) =
        some (histEntryAt klines (klines.length - 1) last) := by
      rw [hlen, historicalData_get?, hl]; rfl
    have h2 : (historicalData klines).get? 0 = some (histEntryAt klines 0 first) := by
      rw [historicalData_get?, h0]; rfl
    show ((((historicalData klines).get? ((historicalData klines).length - 1)).getD
          default).close -
        (((historicalData klines).get? 0).getD default).«open») /
        (((historicalData klines).get? 0).getD default).«open» * 100 = _
    rw [h1, h2]
    rfl
  · have h : totalChange twoCandleSeries =
        (parseFloat "110" - parseFloat "100") / parseFloat "100" * 100 := rfl
    rw [h, parseFloat_110, parseFloat_100]
    norm_num
  · have h : (historicalData twoCandleSeries).get? 1 =
        some (histEntryAt twoCandleSeries 1 ⟨60000, "105", "115", "95", "110", "12"⟩) := rfl
    have h2 : (histEntryAt twoCandleSeries 1 ⟨60000, "105", "115", "95", "110", "12"⟩).change =
        (parseFloat "110" - parseFloat "105") / parseFloat "105" * 100 := rfl
    rw [h, Option.map_some', h2, parseFloat_110, parseFloat_105]

/-- Claim C5 witness: the period/change facts evaluated on the mocked
two-candle series. -/
theorem c5_witness :
    (histEntryAt twoCandleSeries 1 ⟨60000, "105", "115", "95", "110", "12"⟩).period = 2 ∧
    (histEntryAt twoCandleSeries 1 ⟨60000, "105", "115", "95", "110", "12"⟩).change =
      (parseFloat "110" - parseFloat "105") / parseFloat "105" * 100 ∧
    totalChange twoCandleSeries =
      (parseFloat "110" - parseFloat "100") / parseFloat "100" * 100 :=
  ⟨(c5_price_history_changes.1 twoCandleSeries 1 ⟨60000, "105", "115", "95", "110", "12"⟩
      ⟨0, "100", "110", "90", "105", "10"⟩
      (histEntryAt twoCandleSeries 1 ⟨60000, "105", "115", "95", "110", "12"⟩)
      rfl rfl rfl (by decide)).1,
   (c5_price_history_changes.1 twoCandleSeries 1 ⟨60000, "105", "115", "95", "110", "12"⟩
      ⟨0, "100", "110", "90", "105", "10"⟩
      (histEntryAt twoCandleSeries 1 ⟨60000, "105", "115", "95", "110", "12"⟩)
      rfl rfl rfl (by decide)).2,
   c5_price_history_changes.2.2.1 twoCandleSeries ⟨0, "100", "110", "90", "105", "10"⟩
     ⟨60000, "105", "115", "95", "110", "12"⟩ rfl rfl⟩

/-! ### Claim C6 — empty series is a failure -/

/-- Claim C6: an empty candle series from the data source makes both
candle tools fail — through dispatch, `get_kline_data` yields the text
reply `Error: Failed to fetch kline data: No kline data received` and
`get_price_history` the analogously wrapped
`Error: Failed to fetch price history: No historical data received` — and
conversely, whenever either handler returns successfully, the series the
data source produced was non-empty. -/
theorem c6_empty_series_fails :
    (∀ (ds : DataSource) (args : ToolArgs),
        ds.klines (getKlineDataRequest args.symbol args.interval (klineLimitOf args.limit)) =
          .ok [] →
        handleCallTool ds ⟨"get_kline_data", some args⟩ =
          .ok (textResult "Error: Failed to fetch kline data: No kline data received")) ∧
    (∀ (ds : DataSource) (args : ToolArgs),
        ds.klines
            (getPriceHistoryRequest args.symbol args.interval (historyLimitOf args.limit)) =
          .ok [] →
        handleCallTool ds ⟨"get_price_history", some args⟩ =
          .ok (textResult "Error: Failed to fetch price history: No historical data received")) ∧
    (∀ (ds : DataSource) (s i : String) (l : ℚ),
        isOkOutcome (getKlineData ds s i l) = true →
        ∃ ks, ds.klines (getKlineDataRequest s i l) = .ok ks ∧ ks ≠ []) ∧
    (∀ (ds : DataSource) (s i : String) (l : ℚ),
        isOkOutcome (getPriceHistory ds s i l) = true →
        ∃ ks, ds.klines (getPriceHistoryRequest s i l) = .ok ks ∧ ks ≠ []) := by
  refine ⟨?_, ?_, ?_, ?_⟩
  · intro ds args h
    show catchToText (getKlineData ds args.symbol args.interval (klineLimitOf args.limit)) = _
    unfold getKlineData
    rw [h]
    rfl
  · intro ds args h
    show catchToText
        (getPriceHistory ds args.symbol args.interval (historyLimitOf args.limit)) = _
    unfold getPriceHistory
    rw [h]
    rfl
  · intro ds s i l h
    unfold getKlineData at h
    cases hk : ds.klines (getKlineDataRequest s i l) with
    | error e => rw [hk] at h; simp [wrapError, isOkOutcome] at h
    | ok ks =>
      rw [hk] at h
      by_cases hl : ks.length = 0
      · simp [hl, wrapError, isOkOutcome] at h
      · exact ⟨ks, rfl, fun hnil => hl (by rw [hnil]; rfl)⟩
  · intro ds s i l h
    unfold getPriceHistory at h
    cases hk : ds.klines (getPriceHistoryRequest s i l) with
    | error e => rw [hk] at h; simp [wrapError, isOkOutcome] at h
    | ok ks =>
      rw [hk] at h
      by_cases hl : ks.length = 0
      · simp [hl, wrapError, isOkOutcome] at h
      · exact ⟨ks, rfl, fun hnil => hl (by rw [hnil]; rfl)⟩

/-- Claim C6 witness: the failure texts on a data source answering with an
empty array, and the non-empty series behind a successful call on a
one-candle data source. -/
theorem c6_witness :
    handleCallTool emptyKlinesDS ⟨"get_kline_data", some ⟨"BTCUSDT", "1h", none⟩⟩ =
      .ok (textResult "Error: Failed to fetch kline data: No kline data received") ∧
    handleCallTool emptyKlinesDS ⟨"get_price_history", some ⟨"BTCUSDT", "1h", none⟩⟩ =
      .ok (textResult "Error: Failed to fetch price history: No historical data received") ∧
    (∃ ks, oneCandleDS.klines (getKlineDataRequest "BTCUSDT" "1h" 100) = .ok ks ∧ ks ≠ []) ∧
    (∃ ks, oneCandleDS.klines (getPriceHistoryRequest "BTCUSDT" "1h" 24) = .ok ks ∧ ks ≠ []) :=
  ⟨c6_empty_series_fails.1 emptyKlinesDS ⟨"BTCUSDT", "1h", none⟩ rfl,
   c6_empty_series_fails.2.1 emptyKlinesDS ⟨"BTCUSDT", "1h", none⟩ rfl,
   c6_empty_series_fails.2.2.1 oneCandleDS "BTCUSDT" "1h" 100 rfl,
   c6_empty_series_fails.2.2.2 oneCandleDS "BTCUSDT" "1h" 24 rfl⟩

/-! ### Claim C7 — limit defaults -/

/-- Claim C7: an absent or falsy `limit` argument is replaced by the
default 100 for `get_kline_data` and 24 for `get_price_history` — also
observable end to end with a probing data source whose candle endpoint
throws its requested limit back as the error message. -/
theorem c7_limit_defaults :
    (∀ l : Option ℚ, l = none ∨ l = some 0 →
        klineLimitOf l = 100 ∧ historyLimitOf l = 24) ∧
    handleCallTool limitProbeDS ⟨"get_kline_data", some ⟨"BTCUSDT", "1h", none⟩⟩ =
      .ok (textResult "Error: Failed to fetch kline data: 100") ∧
    handleCallTool limitProbeDS ⟨"get_kline_data", some ⟨"BTCUSDT", "1h", some 0⟩⟩ =
      .ok (textResult "Error: Failed to fetch kline data: 100") ∧
    handleCallTool limitProbeDS ⟨"get_price_history", some ⟨"BTCUSDT", "1h", none⟩⟩ =
      .ok (textResult "Error: Failed to fetch price history: 24") ∧
    handleCallTool limitProbeDS ⟨"get_price_history", some ⟨"BTCUSDT", "1h", some 0⟩⟩ =
      .ok (textResult "Error: Failed to fetch price history: 24") := by
  refine ⟨fun l h => ?_, rfl, rfl, rfl, rfl⟩
  rcases h with rfl | rfl <;> exact ⟨rfl, rfl⟩

/-- Claim C7 witness: the defaults evaluated at an absent limit. -/
theorem c7_witness : klineLimitOf none = 100 ∧ historyLimitOf none = 24 :=
  c7_limit_defaults.1 none (Or.inl rfl)

/-! ### Claim C8 — symbol normalization and price formatting -/

/-- Claim C8: `get_current_price` upper-cases the symbol for the outbound
request (`btcusdt` is sent as `BTCUSDT`, also observable end to end with a
probing data source whose price endpoint throws the requested symbol
back), and on the mocked body `{symbol: "BTCUSDT", price: "65000.5"}` the
reply text is `Current price for BTCUSDT: $65,000.5`, with grouped
thousands in the price. -/
theorem c8_symbol_normalization (ds : DataSource)
    (h : ds.tickerPrice (getCurrentPriceRequest "btcusdt") = .ok ⟨"BTCUSDT", "65000.5"⟩) :
    (getCurrentPriceRequest "btcusdt").symbol = "BTCUSDT" ∧
    getCurrentPrice ds "btcusdt" =
      .ok (textResult "Current price for BTCUSDT: $65,000.5") ∧
    handleCallTool symbolProbeDS ⟨"get_current_price", some ⟨"btcusdt", "", none⟩⟩ =
      .ok (textResult "Error: Failed to fetch current price: BTCUSDT") := by
  refine ⟨by decide, ?_, by decide⟩
  unfold getCurrentPrice
  rw [h]
  show Except.ok (textResult ("Current price for " ++ "BTCUSDT" ++ ": $" ++
    jsToLocaleString (parseFloat "65000.5"))) = _
  rw [jsToLocaleString_65000_5]
  decide

/-- Claim C8 witness: the reply evaluated on a data source answering with
the mocked body. -/
theorem c8_witness :
    (getCurrentPriceRequest "btcusdt").symbol = "BTCUSDT" ∧
    getCurrentPrice btcPriceDS "btcusdt" =
      .ok (textResult "Current price for BTCUSDT: $65,000.5") ∧
    handleCallTool symbolProbeDS ⟨"get_current_price", some ⟨"btcusdt", "", none⟩⟩ =
      .ok (textResult "Error: Failed to fetch current price: BTCUSDT") :=
  c8_symbol_normalization btcPriceDS rfl

/-! ### Claim C9 — unknown tool names -/

/-- Claim C9: invoking any name outside the four registered tool names,
with an arguments mapping present, yields the successful-transport text
reply `Error: Unknown tool: <name>` regardless of the data source. -/
theorem c9_unknown_tool (ds : DataSource) (args : ToolArgs) (name : String)
    (h : name ∉ registeredToolNames) :
    handleCallTool ds ⟨name, some args⟩ =
      .ok (textResult ("Error: Unknown tool: " ++ name)) := by
  have h1 : name ≠ "get_current_price" := fun hh => h (by rw [hh]; decide)
  have h2 : name ≠ "get_24hr_ticker" := fun hh => h (by rw [hh]; decide)
  have h3 : name ≠ "get_kline_data" := fun hh => h (by rw [hh]; decide)
  have h4 : name ≠ "get_price_history" := fun hh => h (by rw [hh]; decide)
  show catchToText (dispatchSwitch ds name args) = _
  unfold dispatchSwitch
  rw [if_neg h1, if_neg h2, if_neg h3, if_neg h4]
  show Except.ok (textResult ("Error: " ++ ("Unknown tool: " ++ name))) = _
  rw [← String.append_assoc,
    show ("Error: " ++ "Unknown tool: " : String) = "Error: Unknown tool: " by decide]

/-- Claim C9 witness: the unknown-tool reply evaluated at the name
`foo`. -/
theorem c9_witness :
    handleCallTool networkErrDS ⟨"foo", some ⟨"", "", none⟩⟩ =
      .ok (textResult "Error: Unknown tool: foo") :=
  c9_unknown_tool networkErrDS ⟨"", "", none⟩ "foo" (by decide)

/-! ### Claim C10 — reply shape -/

/-- A single-item text reply is well formed. -/
theorem textResult_wf (t : String) : wellFormedResult (textResult t) :=
  ⟨rfl, by intro c hc; rw [List.mem_singleton.mp hc]⟩

/-- An `ok` outcome of `wrapError` is an `ok` outcome of the wrapped
computation. -/
theorem wrapError_ok_eq (p : String) (e : Except String ToolResult) (r : ToolResult)
    (h : wrapError p e = .ok r) : e = .ok r := by
  cases e with
  | error x => exact Except.noConfusion h
  | ok x => exact h

/-- Replies of `getCurrentPrice` are single-item text replies: it only returns single-item text replies. -/
theorem getCurrentPrice_wf (ds : DataSource) (s : String) (r : ToolResult)
    (h : getCurrentPrice ds s = .ok r) : wellFormedResult r := by
  have h2 := wrapError_ok_eq _ _ _ h
  cases hk : ds.tickerPrice (getCurrentPriceRequest s) with
  | error e => rw [hk] at h2; exact Except.noConfusion h2
  | ok d => rw [hk] at h2; rw [← Except.ok.inj h2]; exact textResult_wf _

/-- Replies of `get24hrTicker` are single-item text replies: it only returns single-item text replies. -/
theorem get24hrTicker_wf (ds : DataSource) (s : String) (r : ToolResult)
    (h : get24hrTicker ds s = .ok r) : wellFormedResult r := by
  have h2 := wrapError_ok_eq _ _ _ h
  cases hk : ds.ticker24hr (get24hrTickerRequest s) with
  | error e => rw [hk] at h2; exact Except.noConfusion h2
  | ok d => rw [hk] at h2; rw [← Except.ok.inj h2]; exact textResult_wf _

/-- Replies of `getKlineData` are single-item text replies: it only returns single-item text replies. -/
theorem getKlineData_wf (ds : DataSource) (s i : String) (l : ℚ) (r : ToolResult)
    (h : getKlineData ds s i l = .ok r) : wellFormedResult r := by
  have h2 := wrapError_ok_eq _ _ _ h
  cases hk : ds.klines (getKlineDataRequest s i l) with
  | error e => rw [hk] at h2; exact Except.noConfusion h2
  | ok ks =>
    rw [hk] at h2
    have h3 : (if ks.length = 0 then (Except.error "No kline data received" : Except String ToolResult)
        else .ok (textResult (klineText s i l ks))) = .ok r := h2
    by_cases hl : ks.length = 0
    · rw [if_pos hl] at h3; exact Except.noConfusion h3
    · rw [if_neg hl] at h3; rw [← Except.ok.inj h3]; exact textResult_wf _

/-- Replies of `getPriceHistory` are single-item text replies: it only returns single-item text replies. -/
theorem getPriceHistory_wf (ds : DataSource) (s i : String) (l : ℚ) (r : ToolResult)
    (h : getPriceHistory ds s i l = .ok r) : wellFormedResult r := by
  have h2 := wrapError_ok_eq _ _ _ h
  cases hk : ds.klines (getPriceHistoryRequest s i l) with
  | error e => rw [hk] at h2; exact Except.noConfusion h2
  | ok ks =>
    rw [hk] at h2
    have h3 : (if ks.length = 0 then (Except.error "No historical data received" : Except String ToolResult)
        else .ok (textResult (historyText s i l ks))) = .ok r := h2
    by_cases hl : ks.length = 0
    · rw [if_pos hl] at h3; exact Except.noConfusion h3
    · rw [if_neg hl] at h3; rw [← Except.ok.inj h3]; exact textResult_wf _

/-- Replies of the dispatch `switch` are well formed on every branch. -/
theorem dispatchSwitch_wf (ds : DataSource) (name : String) (args : ToolArgs)
    (r : ToolResult) (h : dispatchSwitch ds name args = .ok r) : wellFormedResult r := by
  unfold dispatchSwitch at h
  split at h
  · exact getCurrentPrice_wf _ _ _ h
  · split at h
    · exact get24hrTicker_wf _ _ _ h
    · split at h
      · exact getKlineData_wf _ _ _ _ _ h
      · split at h
        · exact getPriceHistory_wf _ _ _ _ _ h
        · exact Except.noConfusion h

/-- Replies surviving or created by the dispatch `catch` are well
formed. -/
theorem catchToText_wf (e : Except String ToolResult)
    (he : ∀ r, e = .ok r → wellFormedResult r) (r : ToolResult)
    (h : catchToText e = .ok r) : wellFormedResult r := by
  cases e with
  | error msg => rw [← Except.ok.inj h]; exact textResult_wf _
  | ok r2 => exact he r (Except.ok.inj h ▸ rfl)

/-- Claim C10: every reply the invocation dispatch produces — from a
successful handler or from a caught error — carries a `content` sequence
of exactly one element, and that element has type `"text"`. -/
theorem c10_reply_shape (ds : DataSource) (req : ToolInvocation) (r : ToolResult)
    (h : handleCallTool ds req = .ok r) :
    r.content.length = 1 ∧ ∀ c ∈ r.content, c.type = "text" := by
  obtain ⟨name, args⟩ := req
  cases args with
  | none => exact Except.noConfusion h
  | some a =>
    exact catchToText_wf _ (fun r2 h2 => dispatchSwitch_wf ds name a r2 h2) r h

/-- Claim C10 witness: the shape facts evaluated on the reply to an
unknown-tool invocation. -/
theorem c10_witness :
    handleCallTool networkErrDS ⟨"bar", some ⟨"", "", none⟩⟩ =
      .ok (textResult "Error: Unknown tool: bar") ∧
    ((textResult "Error: Unknown tool: bar").content.length = 1 ∧
      ∀ c ∈ (textResult "Error: Unknown tool: bar").content, c.type = "text") :=
  ⟨rfl, c10_reply_shape networkErrDS ⟨"bar", some ⟨"", "", none⟩⟩
    (textResult "Error: Unknown tool: bar") rfl⟩

end BinanceMCP
